import Mathlib

/-!
Shallow embedding of the ConcussionSite signal-extraction and risk-scoring
pipeline (src/analysis/risk.py, src/analysis/metrics.py, src/tracking/blink.py,
src/stimulus/pursuit.py, src/main.py).  Python floats are modelled as real
numbers; a Python division that can raise ZeroDivisionError is modelled as an
Option-valued division.
-/

noncomputable section

namespace ConcussionSite

/-- Euclidean distance between two 2-D points (np.linalg.norm of a difference). -/
def dist2 (p q : ℝ × ℝ) : ℝ :=
  Real.sqrt ((p.1 - q.1) ^ 2 + (p.2 - q.2) ^ 2)

/-- Arithmetic mean of a list (np.mean). -/
def popMean (l : List ℝ) : ℝ :=
  l.sum / l.length

/-- Population variance of a list (the square of np.std). -/
def popVar (l : List ℝ) : ℝ :=
  ((l.map fun x => (x - popMean l) ^ 2).sum) / l.length

/-- Population standard deviation (np.std, default ddof=0). -/
def popStd (l : List ℝ) : ℝ :=
  Real.sqrt (popVar l)

/-- Python float division: raises ZeroDivisionError (modelled as none) on a
zero denominator. -/
def pydiv (x y : ℝ) : Option ℝ :=
  if y = 0 then none else some (x / y)

/-! ## Data model -/

/-- The fields of the per-phase metrics dict produced by `run_phase` in
src/main.py that downstream aggregation consumes. -/
structure PhaseSummary where
  blink_count : ℕ
  eye_closed_time : ℝ
  gaze_distances : List ℝ
  duration : ℝ

/-- The metrics dict returned by `calculate_metrics` in src/analysis/metrics.py. -/
structure Metrics where
  baseline_blink_rate : ℝ
  flicker_blink_rate : ℝ
  blink_rate_delta : ℝ
  eye_closed_fraction : ℝ
  gaze_off_fraction : ℝ

/-- The dict returned by `run_dot_pursuit` in src/stimulus/pursuit.py. -/
structure PursuitSummary where
  variance : ℝ
  sp_percent : ℝ
  mean_error : ℝ
  num_frames : ℕ

/-- The four symptom booleans collected by `ask_symptoms` in src/main.py. -/
structure Symptoms where
  headache : Bool
  nausea : Bool
  dizziness : Bool
  light_sensitivity : Bool

/-! ## Risk scorer (src/analysis/risk.py, assess_concussion_risk) -/

/-- Python sum of the four symptom booleans. -/
def symptomCount (s : Symptoms) : ℕ :=
  s.headache.toNat + s.nausea.toNat + s.dizziness.toNat + s.light_sensitivity.toNat

/-- Blink-dynamics contribution: the first if/elif chain of
`assess_concussion_risk` (baseline < 5 flags an artifact and adds nothing). -/
def blinkScore (baseline_blink_rate flicker_blink_rate blink_rate_delta : ℝ) : ℕ :=
  if baseline_blink_rate < 5 then 0
  else if flicker_blink_rate > baseline_blink_rate * 1.5 then 2
  else if blink_rate_delta > 10 then 1
  else 0

/-- Eye-closed-fraction contribution. -/
def closedScore (eye_closed_fraction : ℝ) : ℕ :=
  if eye_closed_fraction > 0.15 then 2
  else if eye_closed_fraction > 0.10 then 1
  else 0

/-- Gaze-aversion contribution. -/
def gazeScore (gaze_off_fraction : ℝ) : ℕ :=
  if gaze_off_fraction > 0.50 then 2
  else if gaze_off_fraction > 0.30 then 1
  else 0

/-- Smooth-pursuit contribution: nothing when pursuit_metrics is None, else the
sp_percent if/elif chain plus the independent variance check. -/
def pursuitScore : Option PursuitSummary → ℕ
  | none => 0
  | some p =>
      (if p.sp_percent < 0.6 then 2
       else if p.sp_percent < 0.75 then 1
       else 0)
      + (if p.variance > 150 then 1 else 0)

/-- Symptom-count contribution. -/
def symptomScore (s : Symptoms) : ℕ :=
  if symptomCount s ≥ 3 then 3
  else if symptomCount s = 2 then 2
  else if symptomCount s = 1 then 1
  else 0

/-- The total risk_score accumulated by `assess_concussion_risk`: the factor
contributions are independent and additive. -/
def riskScore (m : Metrics) (s : Symptoms) (p : Option PursuitSummary) : ℕ :=
  blinkScore m.baseline_blink_rate m.flicker_blink_rate m.blink_rate_delta
    + closedScore m.eye_closed_fraction
    + gazeScore m.gaze_off_fraction
    + pursuitScore p
    + symptomScore s

/-- The risk_level tier mapping at the end of `assess_concussion_risk`. -/
def riskLevel (score : ℕ) : String :=
  if score ≥ 7 then "HIGH"
  else if score ≥ 4 then "MODERATE"
  else if score ≥ 2 then "LOW"
  else "MINIMAL"

/-- The (risk_score, risk_level) pair of the dict `assess_concussion_risk`
returns. -/
def assess_concussion_risk (m : Metrics) (s : Symptoms) (p : Option PursuitSummary) :
    ℕ × String :=
  (riskScore m s p, riskLevel (riskScore m s p))

/-! ## Eye-state estimator (src/tracking/blink.py) -/

/-- EAR_BASE_THRESHOLD in src/tracking/blink.py. -/
def EAR_BASE_THRESHOLD : ℝ := 0.25

/-- EAR_CONSECUTIVE_FRAMES in src/tracking/blink.py. -/
def EAR_CONSECUTIVE_FRAMES : ℕ := 2

/-- Eye Aspect Ratio from 6 landmark points (calculate_ear).  Fewer than 6
points returns the default 0.3 "open" value; a zero horizontal distance
returns 0.0; otherwise (v1 + v2) / (2 h). -/
def calculate_ear (eye_landmarks : List (ℝ × ℝ)) : ℝ :=
  if eye_landmarks.length < 6 then 0.3
  else
    let p := fun i => eye_landmarks.getD i (0, 0)
    let v1 := dist2 (p 1) (p 5)
    let v2 := dist2 (p 2) (p 4)
    let h := dist2 (p 0) (p 3)
    if h = 0 then 0
    else (v1 + v2) / (2 * h)

/-- Python `l[-30:]`: the last `n` elements of a list. -/
def lastN (n : ℕ) (l : List ℝ) : List ℝ :=
  l.drop (l.length - n)

/-- Adaptive threshold (get_adaptive_threshold): with more than 10 samples, 70% of the mean of the
last 30 samples, floored at 0.20; otherwise the fixed base threshold. -/
def get_adaptive_threshold (ear_values : List ℝ) : ℝ :=
  if 10 < ear_values.length then
    max (popMean (lastN 30 ear_values) * 0.70) 0.20
  else EAR_BASE_THRESHOLD

/-! ## Blink/session accumulator (src/main.py, run_phase frame loop) -/

/-- The per-phase mutable state of the `run_phase` loop that frame processing
touches. -/
structure PhaseState where
  blink_count : ℕ
  eye_closed_time : ℝ
  gaze_distances : List ℝ
  frame_count : ℕ
  is_eye_closed : Bool
  ear_below_threshold_count : ℕ
  ear_values : List ℝ
  face_detected_count : ℕ

/-- What one frame with a detected face contributes: the averaged two-eye EAR,
the gaze distance of the frame, and the wall-clock frame duration. -/
structure FaceObs where
  avg_ear : ℝ
  gaze_dist : ℝ
  frame_duration : ℝ

/-- One iteration of the `run_phase` frame loop: `none` is an oracle "no face"
frame (only the frame counter moves); with a face, the EAR sample is appended,
the adaptive threshold recomputed, and the two-state blink machine stepped. -/
def phaseStep (s : PhaseState) (obs : Option FaceObs) : PhaseState :=
  let s := { s with frame_count := s.frame_count + 1 }
  match obs with
  | none => s
  | some o =>
      let ear_values := s.ear_values ++ [o.avg_ear]
      let current_threshold := get_adaptive_threshold ear_values
      if o.avg_ear < current_threshold then
        let cnt := s.ear_below_threshold_count + 1
        let fire := s.is_eye_closed = false ∧ EAR_CONSECUTIVE_FRAMES ≤ cnt
        let blink_count := if fire then s.blink_count + 1 else s.blink_count
        let is_eye_closed := if fire then true else s.is_eye_closed
        let eye_closed_time :=
          if is_eye_closed then s.eye_closed_time + o.frame_duration
          else s.eye_closed_time
        { s with
            face_detected_count := s.face_detected_count + 1
            ear_values := ear_values
            ear_below_threshold_count := cnt
            blink_count := blink_count
            is_eye_closed := is_eye_closed
            eye_closed_time := eye_closed_time
            gaze_distances := s.gaze_distances ++ [o.gaze_dist] }
      else
        { s with
            face_detected_count := s.face_detected_count + 1
            ear_values := ear_values
            ear_below_threshold_count := 0
            is_eye_closed := false
            gaze_distances := s.gaze_distances ++ [o.gaze_dist] }

/-- A whole phase: fold the frame loop over the oracle's frame stream. -/
def runPhaseFrames (frames : List (Option FaceObs)) (s : PhaseState) : PhaseState :=
  frames.foldl phaseStep s

/-- The state at the start of a phase. -/
def initialPhaseState : PhaseState :=
  { blink_count := 0
    eye_closed_time := 0
    gaze_distances := []
    frame_count := 0
    is_eye_closed := false
    ear_below_threshold_count := 0
    ear_values := []
    face_detected_count := 0 }

/-! ## Metrics aggregator (src/analysis/metrics.py, calculate_metrics) -/

/-- The gaze-aversion threshold: mean + 2·std of the baseline gaze distances,
floored at 100.0; 100.0 outright when the baseline has no gaze samples. -/
def gazeThreshold (baseline_gaze_distances : List ℝ) : ℝ :=
  if 0 < baseline_gaze_distances.length then
    max (popMean baseline_gaze_distances + 2 * popStd baseline_gaze_distances) 100.0
  else 100.0

/-- gaze_off_fraction: samples of both phases strictly above the baseline-derived
threshold over the total sample count, 0 when there are no samples. -/
def gazeOffFraction (b f : PhaseSummary) : ℝ :=
  let t := gazeThreshold b.gaze_distances
  let baseline_gaze_off := b.gaze_distances.countP fun d => decide (d > t)
  let flicker_gaze_off := f.gaze_distances.countP fun d => decide (d > t)
  let total_gaze_measurements := b.gaze_distances.length + f.gaze_distances.length
  if 0 < total_gaze_measurements then
    ((baseline_gaze_off + flicker_gaze_off : ℕ) : ℝ) / (total_gaze_measurements : ℝ)
  else 0

/-- eye_closed_fraction: total closed time over total duration, 0 when the total
duration is not positive. -/
def eyeClosedFraction (b f : PhaseSummary) : ℝ :=
  let total_closed_time := b.eye_closed_time + f.eye_closed_time
  let total_duration := b.duration + f.duration
  if 0 < total_duration then total_closed_time / total_duration else 0

/-- The metrics dict builder (calculate_metrics): the two blink-rate divisions are bare Python divisions
(ZeroDivisionError on a zero duration, modelled with `pydiv`); the fraction
computations carry explicit guards. -/
def calculate_metrics (b f : PhaseSummary) : Option Metrics := do
  let br ← pydiv (b.blink_count : ℝ) b.duration
  let baseline_blink_rate := br * 60
  let fr ← pydiv (f.blink_count : ℝ) f.duration
  let flicker_blink_rate := fr * 60
  pure
    { baseline_blink_rate := baseline_blink_rate
      flicker_blink_rate := flicker_blink_rate
      blink_rate_delta := flicker_blink_rate - baseline_blink_rate
      eye_closed_fraction := eyeClosedFraction b f
      gaze_off_fraction := gazeOffFraction b f }

/-! ## Pursuit sampler (src/stimulus/pursuit.py, run_dot_pursuit) -/

/-- One frame of the pursuit loop: the current dot position and the oracle's
gaze estimate (none when no face was found). -/
structure PursuitFrame where
  target : ℝ × ℝ
  gaze : Option (ℝ × ℝ)

/-- One iteration of the pursuit loop over the accumulator
(errors, inside, total): a gaze estimate contributes an error sample and, when
the error is below 80 px, an in-window hit; `total` counts every frame. -/
def pursuitStep (acc : List ℝ × ℕ × ℕ) (fr : PursuitFrame) : List ℝ × ℕ × ℕ :=
  let (errors, inside, total) := acc
  match fr.gaze with
  | none => (errors, inside, total + 1)
  | some g =>
      let err := dist2 g fr.target
      (errors ++ [err], if err < 80 then inside + 1 else inside, total + 1)

/-- The pursuit loop over a frame stream. -/
def pursuitRun (frames : List PursuitFrame) : List ℝ × ℕ × ℕ :=
  frames.foldl pursuitStep ([], 0, 0)

/-- The aggregation at the end of `run_dot_pursuit`: std/mean of the error
samples with a 999.0 sentinel when there are none, and inside/total with a
zero guard. -/
def pursuitAggregate (errors : List ℝ) (inside total : ℕ) : PursuitSummary :=
  { variance := if errors ≠ [] then popStd errors else 999.0
    sp_percent := if 0 < total then (inside : ℝ) / (total : ℝ) else 0.0
    mean_error := if errors ≠ [] then popMean errors else 999.0
    num_frames := total }

/-- The pursuit phase end-to-end over an abstract frame stream. -/
def run_dot_pursuit (frames : List PursuitFrame) : PursuitSummary :=
  let acc := pursuitRun frames
  pursuitAggregate acc.1 acc.2.1 acc.2.2

/-! ## Helper lemmas -/

theorem blinkScore_mono (b f f' d d' : ℝ) (hf : f ≤ f') (hd : d ≤ d') :
    blinkScore b f d ≤ blinkScore b f' d' := by
  unfold blinkScore
  split_ifs <;> first | omega | linarith

theorem closedScore_mono (c c' : ℝ) (h : c ≤ c') : closedScore c ≤ closedScore c' := by
  unfold closedScore
  split_ifs <;> first | omega | linarith

theorem gazeScore_mono (g g' : ℝ) (h : g ≤ g') : gazeScore g ≤ gazeScore g' := by
  unfold gazeScore
  split_ifs <;> first | omega | linarith

theorem pursuitScore_mono (p p' : PursuitSummary) (hsp : p'.sp_percent ≤ p.sp_percent)
    (hv : p.variance ≤ p'.variance) : pursuitScore (some p) ≤ pursuitScore (some p') := by
  simp only [pursuitScore]
  have h1 : (if p.sp_percent < 0.6 then 2 else if p.sp_percent < 0.75 then 1 else 0)
      ≤ (if p'.sp_percent < 0.6 then 2 else if p'.sp_percent < 0.75 then 1 else 0) := by
    split_ifs <;> first | omega | linarith
  have h2 : (if p.variance > 150 then 1 else 0) ≤ (if p'.variance > 150 then 1 else 0) := by
    split_ifs <;> first | omega | linarith
  omega

theorem symptomScore_mono (s s' : Symptoms) (h : symptomCount s ≤ symptomCount s') :
    symptomScore s ≤ symptomScore s' := by
  unfold symptomScore
  split_ifs <;> omega

theorem pursuitRun_counts (frames : List PursuitFrame) :
    ∀ acc : List ℝ × ℕ × ℕ,
      (frames.foldl pursuitStep acc).2.2 = acc.2.2 + frames.length
      ∧ (frames.foldl pursuitStep acc).1.length
          = acc.1.length + (frames.countP fun fr => fr.gaze.isSome) := by
  induction frames with
  | nil => intro acc; simp
  | cons fr rest ih =>
      intro acc
      obtain ⟨errors, inside, total⟩ := acc
      simp only [List.foldl_cons, List.countP_cons]
      rcases hg : fr.gaze with _ | g
      · have := ih (pursuitStep (errors, inside, total) fr)
        simp only [pursuitStep, hg] at this ⊢
        simp [this.1, this.2, hg]
        omega
      · have := ih (pursuitStep (errors, inside, total) fr)
        simp only [pursuitStep, hg] at this ⊢
        simp [this.1, this.2, hg]
        constructor <;> omega

/-! ## Claim theorems -/

/-- C1: for baseline blink rate 16, flicker blink rate 26, blink-rate delta 10,
eye-closed fraction 0.20, gaze-off fraction 0.55, pursuit in-window fraction
0.5 with error std 160, and exactly 3 of the 4 symptom flags true, the risk
scorer returns risk_score 12 (2 blink + 2 closed + 2 gaze + 2 pursuit-window +
1 pursuit-variance + 3 symptoms) and risk_level HIGH. -/
theorem risk_scenario_full_house (s : Symptoms) (me : ℝ) (nf : ℕ)
    (h : symptomCount s = 3) :
    assess_concussion_risk
      { baseline_blink_rate := 16, flicker_blink_rate := 26, blink_rate_delta := 10,
        eye_closed_fraction := 0.20, gaze_off_fraction := 0.55 } s
      (some { variance := 160, sp_percent := 0.5, mean_error := me, num_frames := nf })
      = (12, "HIGH") := by
  simp only [assess_concussion_risk, riskScore, blinkScore, closedScore, gazeScore,
    pursuitScore, symptomScore, riskLevel, h]
  norm_num

/-- Witness for C1: the scenario evaluated at the concrete symptom assignment
(headache, nausea, dizziness true; light sensitivity false). -/
theorem risk_scenario_full_house_witness :
    symptomCount ⟨true, true, true, false⟩ = 3 ∧
    assess_concussion_risk
      { baseline_blink_rate := 16, flicker_blink_rate := 26, blink_rate_delta := 10,
        eye_closed_fraction := 0.20, gaze_off_fraction := 0.55 }
      ⟨true, true, true, false⟩
      (some { variance := 160, sp_percent := 0.5, mean_error := 0, num_frames := 0 })
      = (12, "HIGH") :=
  ⟨rfl, risk_scenario_full_house ⟨true, true, true, false⟩ 0 0 rfl⟩

/-- C2 (counterexample): a phase summary with duration 0 makes the unguarded
blink-rate division of calculate_metrics hit a zero denominator
(ZeroDivisionError, modelled as none), refuting the claim that every rate
computation in the downstream aggregation guards the zero-denominator case. -/
theorem calculate_metrics_zero_duration_raises :
    calculate_metrics ⟨0, 0, [], 0⟩ ⟨0, 0, [], 8⟩ = none := by
  simp [calculate_metrics, pydiv]

/-- C2 (amended): the metrics aggregation succeeds exactly when both phase
durations are nonzero — the blink-rate divisions are the only unguarded
denominators — while the pursuit aggregation degrades via its explicit guards
(zero frames give sp_percent 0, zero error samples give the 999 sentinels),
so zero frames or zero samples never cause a division error. -/
theorem aggregation_zero_guards :
    (∀ b f : PhaseSummary,
      (calculate_metrics b f).isSome ↔ (b.duration ≠ 0 ∧ f.duration ≠ 0))
    ∧ (∀ (errors : List ℝ) (inside total : ℕ),
      (total = 0 → (pursuitAggregate errors inside total).sp_percent = 0)
      ∧ (errors = [] → (pursuitAggregate errors inside total).mean_error = 999
          ∧ (pursuitAggregate errors inside total).variance = 999)) := by
  constructor
  · intro b f
    unfold calculate_metrics pydiv
    by_cases h1 : b.duration = 0 <;> by_cases h2 : f.duration = 0 <;>
      simp [h1, h2]
  · intro errors inside total
    constructor
    · intro h
      simp [pursuitAggregate, h]
      norm_num
    · intro h
      simp [pursuitAggregate, h]
      norm_num

/-- C3: the risk score is monotonically non-decreasing as any one factor
worsens while the others are held fixed — stated jointly: with the baseline
blink rate fixed, raising the flicker rate or delta, the closed fraction, the
gaze fraction or the symptom count, lowering the pursuit in-window fraction,
or raising the pursuit error std never lowers the score. -/
theorem risk_score_monotone (m m' : Metrics) (s s' : Symptoms) (p p' : PursuitSummary)
    (hb : m.baseline_blink_rate = m'.baseline_blink_rate)
    (hf : m.flicker_blink_rate ≤ m'.flicker_blink_rate)
    (hd : m.blink_rate_delta ≤ m'.blink_rate_delta)
    (hc : m.eye_closed_fraction ≤ m'.eye_closed_fraction)
    (hg : m.gaze_off_fraction ≤ m'.gaze_off_fraction)
    (hs : symptomCount s ≤ symptomCount s')
    (hsp : p'.sp_percent ≤ p.sp_percent)
    (hv : p.variance ≤ p'.variance) :
    riskScore m s (some p) ≤ riskScore m' s' (some p') := by
  unfold riskScore
  rw [hb]
  have h1 := blinkScore_mono m'.baseline_blink_rate _ _ _ _ hf hd
  have h2 := closedScore_mono _ _ hc
  have h3 := gazeScore_mono _ _ hg
  have h4 := pursuitScore_mono p p' hsp hv
  have h5 := symptomScore_mono s s' hs
  omega

/-- Witness for C3: the monotonicity theorem applied at a concrete pair of
equal inputs. -/
theorem risk_score_monotone_witness :
    riskScore ⟨16, 26, 10, 0.20, 0.55⟩ ⟨true, true, true, false⟩ (some ⟨160, 0.5, 0, 0⟩)
    ≤ riskScore ⟨16, 26, 10, 0.20, 0.55⟩ ⟨true, true, true, false⟩ (some ⟨160, 0.5, 0, 0⟩) :=
  risk_score_monotone _ _ _ _ _ _ rfl (le_refl _) (le_refl _) (le_refl _) (le_refl _)
    (le_refl _) (le_refl _) (le_refl _)

/-- C4: in the two-state blink machine of the run_phase frame loop, the blink
counter increments by exactly 1 at the EYES_OPEN to EYES_CLOSED edge, which
fires only once the averaged openness has been below the per-frame adaptive
threshold for at least EAR_CONSECUTIVE_FRAMES = 2 consecutive frames; a frame
whose below-threshold run is still shorter than 2 (in particular a single
one-frame dip, counter at 0 before the frame) never increments the counter nor
closes the eye state; below-threshold frames while already closed do not
increment; and the EYES_CLOSED to EYES_OPEN transition fires on the first
frame at or above threshold, resetting the consecutive counter. -/
theorem blink_edge_machine (s : PhaseState) (o : FaceObs) :
    (o.avg_ear < get_adaptive_threshold (s.ear_values ++ [o.avg_ear]) →
      s.is_eye_closed = false →
      EAR_CONSECUTIVE_FRAMES ≤ s.ear_below_threshold_count + 1 →
      (phaseStep s (some o)).blink_count = s.blink_count + 1
        ∧ (phaseStep s (some o)).is_eye_closed = true)
    ∧ (o.avg_ear < get_adaptive_threshold (s.ear_values ++ [o.avg_ear]) →
      s.ear_below_threshold_count + 1 < EAR_CONSECUTIVE_FRAMES →
      (phaseStep s (some o)).blink_count = s.blink_count
        ∧ (phaseStep s (some o)).is_eye_closed = s.is_eye_closed)
    ∧ (o.avg_ear < get_adaptive_threshold (s.ear_values ++ [o.avg_ear]) →
      s.is_eye_closed = true →
      (phaseStep s (some o)).blink_count = s.blink_count
        ∧ (phaseStep s (some o)).is_eye_closed = true)
    ∧ (¬ o.avg_ear < get_adaptive_threshold (s.ear_values ++ [o.avg_ear]) →
      (phaseStep s (some o)).blink_count = s.blink_count
        ∧ (phaseStep s (some o)).is_eye_closed = false
        ∧ (phaseStep s (some o)).ear_below_threshold_count = 0) := by
  dsimp only [phaseStep]
  by_cases hb : o.avg_ear < get_adaptive_threshold (s.ear_values ++ [o.avg_ear])
  · rw [if_pos hb]
    by_cases hf : s.is_eye_closed = false ∧ EAR_CONSECUTIVE_FRAMES ≤ s.ear_below_threshold_count + 1
    · rw [if_pos hf, if_pos hf]
      refine ⟨fun _ _ _ => ⟨rfl, rfl⟩, ?_, ?_, fun hnb => absurd hb hnb⟩
      · intro _ hlt
        exact absurd hf.2 (by omega)
      · intro _ hc
        rw [hf.1] at hc
        exact absurd hc (by simp)
    · rw [if_neg hf, if_neg hf]
      refine ⟨fun _ h2 h3 => absurd ⟨h2, h3⟩ hf, fun _ _ => ⟨rfl, rfl⟩,
        fun _ hc => ⟨rfl, by simp [hc]⟩, fun hnb => absurd hb hnb⟩
  · rw [if_neg hb]
    exact ⟨fun h => absurd h hb, fun h _ => absurd h hb, fun h _ => absurd h hb,
      fun _ => ⟨rfl, rfl, rfl⟩⟩

/-- C5: the adaptive threshold equals the fixed default 0.25 when at most 10
openness samples have been observed, equals max(0.20, 0.70 times the mean of
the last 30 samples) once at least 11 have been observed, and is at least 0.20
in every case. -/
theorem adaptive_threshold_spec (l : List ℝ) :
    (l.length ≤ 10 → get_adaptive_threshold l = 0.25)
    ∧ (11 ≤ l.length →
        get_adaptive_threshold l = max 0.20 (0.70 * popMean (lastN 30 l)))
    ∧ 0.20 ≤ get_adaptive_threshold l := by
  unfold get_adaptive_threshold EAR_BASE_THRESHOLD
  by_cases h : 10 < l.length
  · rw [if_pos h]
    exact ⟨fun hle => absurd h (by omega), fun _ => by rw [max_comm, mul_comm],
      le_max_right _ _⟩
  · rw [if_neg h]
    exact ⟨fun _ => rfl, fun h11 => absurd h11 (by omega), by norm_num⟩

/-- C6: the gaze-aversion threshold is computed from the baseline phase's gaze
distances only, as max(100, mean + 2 std), defaulting to 100 with zero
baseline samples; gaze_off_fraction is the count of baseline-plus-flicker
samples strictly above that threshold over the total sample count of both
phases, and 0 when there are no samples at all. -/
theorem gaze_metrics_spec (b f : PhaseSummary) :
    (b.gaze_distances = [] → gazeThreshold b.gaze_distances = 100)
    ∧ (b.gaze_distances ≠ [] →
        gazeThreshold b.gaze_distances
          = max 100 (popMean b.gaze_distances + 2 * popStd b.gaze_distances))
    ∧ (b.gaze_distances.length + f.gaze_distances.length = 0 → gazeOffFraction b f = 0)
    ∧ (0 < b.gaze_distances.length + f.gaze_distances.length →
        gazeOffFraction b f
          = (((b.gaze_distances.countP fun d => decide (gazeThreshold b.gaze_distances < d))
                + (f.gaze_distances.countP fun d => decide (gazeThreshold b.gaze_distances < d)) : ℕ) : ℝ)
              / ((b.gaze_distances.length + f.gaze_distances.length : ℕ) : ℝ)) := by
  refine ⟨fun h => ?_, fun h => ?_, fun h => ?_, fun h => ?_⟩
  · simp [gazeThreshold, h]
    norm_num
  · rw [gazeThreshold, if_pos (by simpa using List.length_pos.mpr h), max_comm]
    norm_num
  · simp only [gazeOffFraction]
    rw [if_neg (by omega)]
  · simp only [gazeOffFraction]
    rw [if_pos h]

/-- C7 (counterexample): a pair of phase summaries with non-negative closed
times, durations and gaze distances whose eye_closed_fraction exceeds 1 — the
claim omits the invariant that closed time not exceed duration. -/
theorem eye_closed_fraction_above_one :
    1 < eyeClosedFraction ⟨0, 10, [], 1⟩ ⟨0, 0, [], 1⟩ := by
  unfold eyeClosedFraction
  norm_num

/-- C7 (amended): for phase summaries with non-negative closed times and
durations whose total closed time is at most the total duration,
eye_closed_fraction lies in [0, 1]; gaze_off_fraction lies in [0, 1]
unconditionally. -/
theorem fractions_unit_interval (b f : PhaseSummary)
    (hb : 0 ≤ b.eye_closed_time) (hf : 0 ≤ f.eye_closed_time)
    (hdb : 0 ≤ b.duration) (hdf : 0 ≤ f.duration)
    (hle : b.eye_closed_time + f.eye_closed_time ≤ b.duration + f.duration) :
    (0 ≤ eyeClosedFraction b f ∧ eyeClosedFraction b f ≤ 1)
    ∧ (0 ≤ gazeOffFraction b f ∧ gazeOffFraction b f ≤ 1) := by
  constructor
  · unfold eyeClosedFraction
    by_cases h : 0 < b.duration + f.duration
    · rw [if_pos h]
      exact ⟨div_nonneg (by linarith) h.le, (div_le_one h).mpr hle⟩
    · rw [if_neg h]
      norm_num
  · unfold gazeOffFraction
    by_cases h : 0 < b.gaze_distances.length + f.gaze_distances.length
    · rw [if_pos h]
      have hcb := List.countP_le_length
        (p := fun d => decide (gazeThreshold b.gaze_distances < d)) (l := b.gaze_distances)
      have hcf := List.countP_le_length
        (p := fun d => decide (gazeThreshold b.gaze_distances < d)) (l := f.gaze_distances)
      have hpos : (0:ℝ) < ((b.gaze_distances.length + f.gaze_distances.length : ℕ) : ℝ) := by
        exact_mod_cast h
      constructor
      · exact div_nonneg (by positivity) hpos.le
      · rw [div_le_one hpos]
        exact_mod_cast Nat.add_le_add hcb hcf
    · rw [if_neg h]
      norm_num

/-- Witness for C7 (amended): both fractions at a concrete pair of empty
summaries. -/
theorem fractions_unit_interval_witness :
    (0 ≤ eyeClosedFraction ⟨0, 0, [], 0⟩ ⟨0, 0, [], 0⟩
      ∧ eyeClosedFraction ⟨0, 0, [], 0⟩ ⟨0, 0, [], 0⟩ ≤ 1)
    ∧ (0 ≤ gazeOffFraction ⟨0, 0, [], 0⟩ ⟨0, 0, [], 0⟩
      ∧ gazeOffFraction ⟨0, 0, [], 0⟩ ⟨0, 0, [], 0⟩ ≤ 1) :=
  fractions_unit_interval ⟨0, 0, [], 0⟩ ⟨0, 0, [], 0⟩ (le_refl _) (le_refl _)
    (le_refl _) (le_refl _) (le_refl _)

/-- C8 (counterexample): a 6-point eye with zero horizontal width makes
calculate_ear return 0 — the closed-direction fallback — not the neutral open
constant 0.3 the claim names for both degenerate cases. -/
theorem zero_eye_width_not_open :
    calculate_ear [(0, 0), (0, 1), (1, 1), (0, 0), (1, 0), (0, 2)] = 0
    ∧ calculate_ear [(0, 0), (0, 1), (1, 1), (0, 0), (1, 0), (0, 2)] ≠ 0.3 := by
  have h0 : calculate_ear [(0, 0), (0, 1), (1, 1), (0, 0), (1, 0), (0, 2)] = 0 := by
    unfold calculate_ear
    rw [if_neg (by norm_num)]
    simp only [List.getD]
    rw [if_pos]
    simp [dist2]
  exact ⟨h0, by rw [h0]; norm_num⟩

/-- C8 (amended): calculate_ear returns the fixed neutral open constant 0.3
when fewer than 6 points are supplied, and returns the fixed fallback 0
(closed direction) when the horizontal eye-width distance is zero; in neither
case does the ratio division execute. -/
theorem ear_degenerate_fallbacks :
    (∀ pts : List (ℝ × ℝ), pts.length < 6 → calculate_ear pts = 0.3)
    ∧ (∀ pts : List (ℝ × ℝ), ¬ pts.length < 6 →
        dist2 (pts.getD 0 (0, 0)) (pts.getD 3 (0, 0)) = 0 → calculate_ear pts = 0) := by
  constructor
  · intro pts h
    unfold calculate_ear
    rw [if_pos h]
  · intro pts h hz
    unfold calculate_ear
    rw [if_neg h]
    simp only
    rw [if_pos hz]

/-- C9: the pursuit total counts every processed frame while error samples
exist only for frames with a detected face, so in_window_fraction is
inside over all frames; and with zero error samples the aggregation returns
the 999 sentinel for both mean_error and error std. -/
theorem pursuit_asymmetry_and_sentinel (frames : List PursuitFrame) :
    (pursuitRun frames).2.2 = frames.length
    ∧ (pursuitRun frames).1.length = (frames.countP fun fr => fr.gaze.isSome)
    ∧ ((frames.countP fun fr => fr.gaze.isSome) = 0 →
        (run_dot_pursuit frames).mean_error = 999
          ∧ (run_dot_pursuit frames).variance = 999)
    ∧ (0 < frames.length →
        (run_dot_pursuit frames).sp_percent
          = ((pursuitRun frames).2.1 : ℝ) / (frames.length : ℝ)) := by
  have hc := pursuitRun_counts frames ([], 0, 0)
  have ht : (pursuitRun frames).2.2 = frames.length := by
    simpa [pursuitRun] using hc.1
  have he : (pursuitRun frames).1.length = (frames.countP fun fr => fr.gaze.isSome) := by
    simpa [pursuitRun] using hc.2
  refine ⟨ht, he, fun h => ?_, fun h => ?_⟩
  · have hnil : (pursuitRun frames).1 = [] := by
      rw [← List.length_eq_zero]
      omega
    unfold run_dot_pursuit
    simp [pursuitAggregate, hnil]
    norm_num
  · unfold run_dot_pursuit
    simp only [pursuitAggregate]
    rw [ht, if_pos h]

/-- C10: a frame on which the oracle reports no face leaves the whole
blink-detection state unchanged — blink count, closed time, the consecutive
below-threshold counter, the open/closed flag and the openness-sample
history — and records no gaze sample; only the frame counter advances, so
below-threshold frames separated by no-face frames still count as
consecutive. -/
theorem no_face_frame_preserves_tracking_state (s : PhaseState) :
    (phaseStep s none).blink_count = s.blink_count
    ∧ (phaseStep s none).eye_closed_time = s.eye_closed_time
    ∧ (phaseStep s none).ear_below_threshold_count = s.ear_below_threshold_count
    ∧ (phaseStep s none).is_eye_closed = s.is_eye_closed
    ∧ (phaseStep s none).ear_values = s.ear_values
    ∧ (phaseStep s none).gaze_distances = s.gaze_distances
    ∧ (phaseStep s none).frame_count = s.frame_count + 1 := by
  refine ⟨rfl, rfl, rfl, rfl, rfl, rfl, rfl⟩

end ConcussionSite

end
